import Mathlib

/-!
Verification development for the XA Dimensioning extension
(`src/xa_dimensioning.py`), an Inkscape effect extension that annotates
selected paths and rectangles with dimension lines and numeric labels.

The Python source is shallowly embedded below.  Machine floats are modelled
as elements of a linear ordered field `K` (instantiated at `ℚ` for concrete
evaluations and at `ℝ` where `sqrt` is needed, i.e. in the perpendicular
annotation mode).  SVG line elements (`"M x1 y1 H x2"`, `"M x y1 V y2"`,
`"M a b l c d"`, `"M a b L c d"`) are flattened to absolute start/end
coordinates.  An uncaught Python exception (the `ZeroDivisionError` of the
unguarded `1 / sqrt(0)` in `_annotatePathPerpendicularly`) is modelled by
`Option.none`.  Host services of inkex (bounding boxes, superpath
conversion, unit conversion, `csplength`) enter as data carried by the
shape records or as explicit function parameters.
-/

/-- Axis-aligned bounding box, as exposed by inkex `bounding_box()`:
`left ≤ right`, `top ≤ bottom` in document coordinates. -/
structure BBox (K : Type) where
  left : K
  top : K
  right : K
  bottom : K
deriving DecidableEq

variable {K : Type} [LinearOrderedField K] [FloorRing K]

/-- inkex `BoundingBox.width = right - left`. -/
def BBox.width (b : BBox K) : K := b.right - b.left

/-- inkex `BoundingBox.height = bottom - top`. -/
def BBox.height (b : BBox K) : K := b.bottom - b.top

/-- `round(x, p)` of Python as used at `_addTextAlongPath`
(`round(dimVal, self.options.precision)`): scale by `10^p`, round to an
integer, scale back.  (Python rounds ties to even; no theorem below
evaluates `roundP` at a tie, so Mathlib's `round` is an adequate model.) -/
def roundP (x : K) (p : ℤ) : K := ((round (x * (10 : K) ^ p) : ℤ) : K) / (10 : K) ^ p

/-- The per-run configuration (`self.options` after the unit
normalisation at the start of `effect`), plus the conversion factor
`self._uuperpx`.  Offsets, font size and `uuperpx` are in document units. -/
structure Options (K : Type) where
  hide : Bool
  perp : Bool
  xoffset : K
  yoffset : K
  fontsize : K
  precision : ℤ
  uuperpx : K

/-- A straight SVG line from `(x1, y1)` to `(x2, y2)` (the flattened
geometry of the `d` attribute the source writes). -/
structure Line2 (K : Type) where
  x1 : K
  y1 : K
  x2 : K
  y2 : K
deriving DecidableEq

/-- An element appended to an annotation group:
  * `line geom sw lbl` — a `PathElement` with geometry `geom`,
    `stroke-width` `sw` and inkscape label `lbl`;
  * `text value dx dy href lbl` — a `TextElement` holding a `TextPath`
    whose rendered number is `value` (the rounded `dimVal` of
    `_addTextAlongPath`), with the raw `dx`/`dy` offset hints passed by the
    caller, attached (`href`) to the line with geometry `href`, and carrying
    inkscape label `lbl`.  (The internal attribute arithmetic of
    `_addTextAlongPath` depends on the host's text bounding-box service and
    is not modelled; no claim refers to it.) -/
inductive GElem (K : Type) where
  | line (geom : Line2 K) (sw : K) (lbl : Option String)
  | text (value : K) (dx : K) (dy : K) (href : Line2 K) (lbl : String)
deriving DecidableEq

/-- A control-point triplet of a superpath segment:
(incoming control, anchor point, outgoing control). -/
abbrev Pt (K : Type) := K × K

abbrev Triple (K : Type) := Pt K × Pt K × Pt K

/-- `node.path.transform(...).to_superpath()`: a list of subpaths, each a
list of control triplets. -/
abbrev Csp (K : Type) := List (List (Triple K))

/-- A selected `inkex.PathElement`: its id, host-computed bounding box and
host-computed superpath. -/
structure PathNode (K : Type) where
  eid : String
  bbox : BBox K
  csp : Csp K

/-- A selected `inkex.Rectangle`: its id, host-computed bounding box and
the `stroke-width` attribute converted to px by the host
(`inkex.units.convert_unit(node.get("stroke-width", "1px"), "px")`);
`none` when the attribute is absent. -/
structure RectNode (K : Type) where
  eid : String
  bbox : BBox K
  strokePx : Option K

/-- Result of one `_annotatePath…`/`_annotateRect` call: the children of
the appended group in append order, and whether the source shape's style
got `display: none`. -/
structure AnnotResult (K : Type) where
  elems : List (GElem K)
  hidden : Bool
deriving DecidableEq

/-- `_horz_line(y, xlat, bbox)`: `M x1 y1 H x2` with `x1 = left`,
`x2 = right + xlat[0]*xoffset`, `y1 = y - xlat[1]*yoffset`. -/
def horzLine (o : Options K) (y : K) (xlat : K × K) (b : BBox K) : Line2 K :=
  { x1 := b.left
    y1 := y - xlat.2 * o.yoffset
    x2 := b.right + xlat.1 * o.xoffset
    y2 := y - xlat.2 * o.yoffset }

/-- `_vert_line(x, xlat, bbox)`: `M x y1 V y2` with `x := x - xlat[0]*xoffset`,
`y1 = top - xlat[1]*yoffset`, `y2 = bottom`. -/
def vertLine (o : Options K) (x : K) (xlat : K × K) (b : BBox K) : Line2 K :=
  { x1 := x - xlat.1 * o.xoffset
    y1 := b.top - xlat.2 * o.yoffset
    x2 := x - xlat.1 * o.xoffset
    y2 := b.bottom }

/-- `_annotatePath` (grid-orthogonal mode).  Note that the source passes
`dimVal=bbox.height` to `_addTextAlongPath` in both branches (line 252 of
the source is shared by the two branches). -/
def annotatePath (o : Options K) (n : PathNode K) : AnnotResult K :=
  let b := n.bbox
  if b.width ≥ b.height then
    let g := horzLine o b.top (0, 1) b
    ⟨[GElem.line (vertLine o b.left (0, 2) b) (1 / 2 * o.uuperpx) (some (n.eid ++ "-xa-dimning-horz-l")),
      GElem.line (vertLine o b.right (0, 2) b) (1 / 2 * o.uuperpx) (some (n.eid ++ "-xa-dimning-horz-r")),
      GElem.line g o.uuperpx (some (n.eid ++ "-xa-dimning-horz")),
      GElem.text (roundP b.height o.precision) 0 2 g (n.eid ++ "-xa-dimning-horz-dim")],
     o.hide⟩
  else
    let g := vertLine o b.right (-1, 0) b
    ⟨[GElem.line (horzLine o b.top (2, 0) b) (1 / 2 * o.uuperpx) (some (n.eid ++ "-xa-dimning-vert-t")),
      GElem.line (horzLine o b.bottom (2, 0) b) (1 / 2 * o.uuperpx) (some (n.eid ++ "-xa-dimning-vert-b")),
      GElem.line g o.uuperpx (some (n.eid ++ "-xa-dimning-vert")),
      GElem.text (roundP b.height o.precision) 2 0 g (n.eid ++ "-xa-dimning-vert-dim")],
     o.hide⟩

/-- `_annotateRect`: both guide sets, the main horizontal and vertical
lines, and two labels carrying `round(width+stroke)` and
`round(height+stroke)`; `stroke` is the px-converted `stroke-width`
attribute (default `"1px"`) times `_uuperpx`. -/
def annotateRect (o : Options K) (n : RectNode K) : AnnotResult K :=
  let b := n.bbox
  let stroke := n.strokePx.getD 1 * o.uuperpx
  let gH := horzLine o b.top (0, 1) b
  let gV := vertLine o b.right (-1, 0) b
  ⟨[GElem.line gH o.uuperpx (some (n.eid ++ "-xa-dimning-horz")),
    GElem.line (vertLine o b.left (0, 2) b) (1 / 2 * o.uuperpx) (some (n.eid ++ "-xa-dimning-horz-l")),
    GElem.line (vertLine o b.right (0, 2) b) (1 / 2 * o.uuperpx) (some (n.eid ++ "-xa-dimning-horz-r")),
    GElem.line gV o.uuperpx (some (n.eid ++ "-xa-dimning-vert")),
    GElem.line (horzLine o b.top (2, 0) b) (1 / 2 * o.uuperpx) (some (n.eid ++ "-xa-dimning-vert-t")),
    GElem.line (horzLine o b.bottom (2, 0) b) (1 / 2 * o.uuperpx) (some (n.eid ++ "-xa-dimning-vert-b")),
    GElem.text (roundP (b.width + stroke) o.precision) 0 2 gH (n.eid ++ "-xa-dimning-horz-dim"),
    GElem.text (roundP (b.height + stroke) o.precision) 2 0 gV (n.eid ++ "-xa-dimning-vert-dim")],
   o.hide⟩

/-- The rendered numeric values of the text labels among a group's
children, in order. -/
def textValues (es : List (GElem K)) : List K :=
  es.filterMap fun e =>
    match e with
    | .text v _ _ _ _ => some v
    | _ => none

/-- The inkscape labels of the text elements among a group's children. -/
def textLabels (es : List (GElem K)) : List String :=
  es.filterMap fun e =>
    match e with
    | .text _ _ _ _ l => some l
    | _ => none

/-- Some line element of the group lies horizontally at height `y`. -/
def HasHorzLineAtY (es : List (GElem K)) (y : K) : Prop :=
  ∃ g sw lbl, GElem.line g sw lbl ∈ es ∧ g.y1 = y ∧ g.y2 = y

/-- A cubic Bézier `(p0, c0, c1, p1)` as produced by `csp_seg_reduce_bz`. -/
abbrev Bz (K : Type) := Pt K × Pt K × Pt K × Pt K

/-- `csp_seg_reduce_bz`: from two control triplets take
`(spA[1], spA[2], spB[0], spB[1])`, i.e. (anchor of A, outgoing control of
A, incoming control of B, anchor of B). -/
def segReduce (spA spB : Triple K) : Bz K :=
  (spA.2.1, spA.2.2, spB.1, spB.2.1)

/-- Placeholder triplet used to totalise Python's list indexing; a too-short
subpath would raise `IndexError` in the source and is exercised by no claim. -/
def tripleDflt : Triple K := ((0, 0), (0, 0), (0, 0))

/-- `csp_reduce_bz(csp)`: the reduced Bézier of the first two triplets of
the first subpath and of the last two triplets of the last subpath. -/
def cspReduce (csp : Csp K) : Bz K × Bz K :=
  let segA := csp.headD []
  let segB := csp.getLastD []
  (segReduce (segA.getD 0 tripleDflt) (segA.getD 1 tripleDflt),
   segReduce (segB.getD (segB.length - 2) tripleDflt) (segB.getLastD tripleDflt))

/-- Start anchor of the superpath (`p0 = bzA[0]` in the source). -/
def cspStart (csp : Csp K) : Pt K := (cspReduce csp).1.1

/-- End anchor of the superpath (`p1 = bzB[3]` in the source). -/
def cspEnd (csp : Csp K) : Pt K := (cspReduce csp).2.2.2.2

/-- Modelled from the spec: the host curve service
`inkex.bezier.bezierslopeatt(bz, t)` — the analytic derivative of the cubic
Bézier `(p0, c0, c1, p1)` at parameter `t` (spec §4.3: "the analytic Bézier
derivative evaluated at parameter 0 (start) or 1 (end), supplied by the
host's curve service"). -/
def bezierslopeatt (bz : Bz K) (t : K) : Pt K :=
  (3 * (1 - t) ^ 2 * (bz.2.1.1 - bz.1.1) + 6 * (1 - t) * t * (bz.2.2.1.1 - bz.2.1.1)
     + 3 * t ^ 2 * (bz.2.2.2.1 - bz.2.2.1.1),
   3 * (1 - t) ^ 2 * (bz.2.1.2 - bz.1.2) + 6 * (1 - t) * t * (bz.2.2.1.2 - bz.2.1.2)
     + 3 * t ^ 2 * (bz.2.2.2.2 - bz.2.2.1.2))

/-- The straight-line tangent branch of `_annotatePathPerpendicularly`
(source lines 155–168): direction from one anchor to the far anchor,
normalised by `scale = 1 / sqrt(ax**2 + ay**2)` and scaled by the two
offsets independently.  Python's `1 / sqrt(0)` raises `ZeroDivisionError`;
that abnormal exit is modelled by `none`. -/
noncomputable def straightTangent (o : Options ℝ) (p q : Pt ℝ) : Option (Pt ℝ) :=
  let ax := q.1 - p.1
  let ay := q.2 - p.2
  if ax ^ 2 + ay ^ 2 = 0 then none
  else
    let scale := 1 / Real.sqrt (ax ^ 2 + ay ^ 2)
    some (ax * scale * o.xoffset, ay * scale * o.yoffset)

/-- The endpoint tangents `(ax, ay)` and `(bx, by)` of
`_annotatePathPerpendicularly`: the straight branch when the start anchor
equals its outgoing control (`bzA[0] == bzA[1]`), resp. when the end anchor
equals its incoming control (`bzB[3] == bzB[2]`); otherwise the host's
`bezierslopeatt` at parameter 0, resp. 1.  `none` models the uncaught
`ZeroDivisionError` of a zero-length direction vector. -/
noncomputable def endTangents (o : Options ℝ) (csp : Csp ℝ) : Option (Pt ℝ × Pt ℝ) :=
  let bz := cspReduce csp
  let bzA := bz.1
  let bzB := bz.2
  let tA : Option (Pt ℝ) :=
    if bzA.1 = bzA.2.1 then straightTangent o bzA.1 bzA.2.2.2
    else some (bezierslopeatt bzA 0)
  let tB : Option (Pt ℝ) :=
    if bzB.2.2.2 = bzB.2.2.1 then straightTangent o bzB.1 bzB.2.2.2
    else some (bezierslopeatt bzB 1)
  match tA, tB with
  | some a, some b => some (a, b)
  | _, _ => none

/-- `_annotatePathPerpendicularly`: two end-cap tick lines
(`M p0 l ay -ax` and `M p1 l by -bx`), the main dimension line
(`M q0 L q1` with `q0 = p0 + (ay/2, -ax/2)`, `q1 = p1 + (by/2, -bx/2)`),
and the label carrying `round(stotal, precision)` with offset hints
`(ax*1.2, ay*1.2)`, attached to the main line.  `stotal` is the
host-computed total arc length (`inkex.bezier.csplength`).  The source has
no hide step in this mode, so `hidden` is always `false`.  `none` models
the uncaught `ZeroDivisionError` (raised before the group is appended). -/
noncomputable def annotatePathPerp (o : Options ℝ) (n : PathNode ℝ) (stotal : ℝ) :
    Option (AnnotResult ℝ) :=
  match endTangents o n.csp with
  | none => none
  | some (a, b) =>
    let p0 := cspStart n.csp
    let p1 := cspEnd n.csp
    let q0 : Pt ℝ := (p0.1 + a.2 * (1 / 2), p0.2 - a.1 * (1 / 2))
    let q1 : Pt ℝ := (p1.1 + b.2 * (1 / 2), p1.2 - b.1 * (1 / 2))
    let main : Line2 ℝ := ⟨q0.1, q0.2, q1.1, q1.2⟩
    some
      ⟨[GElem.line ⟨p0.1, p0.2, p0.1 + a.2, p0.2 - a.1⟩ (1 / 2 * o.uuperpx) none,
        GElem.line ⟨p1.1, p1.2, p1.1 + b.2, p1.2 - b.1⟩ (1 / 2 * o.uuperpx) none,
        GElem.line main o.uuperpx none,
        GElem.text (roundP stotal o.precision) (a.1 * 1.2) (a.2 * 1.2) main
          (n.eid ++ "-xa-dimning-vert-dim")],
       false⟩

/-- A member of `self.svg.selection`: the two recognised kinds and anything
else (e.g. an ellipse). -/
inductive Shape (K : Type) where
  | path (n : PathNode K)
  | rect (n : RectNode K)
  | other (eid : String)

/-- `selection.filter(inkex.PathElement)` membership test. -/
def Shape.asPath : Shape K → Option (PathNode K)
  | .path n => some n
  | _ => none

/-- `selection.filter(inkex.Rectangle)` membership test. -/
def Shape.asRect : Shape K → Option (RectNode K)
  | .rect n => some n
  | _ => none

/-- Whether a selected shape is of one of the two recognised kinds. -/
def Shape.isEligible : Shape K → Bool
  | .other _ => false
  | _ => true

/-- How a run ends abnormally: the `AbortExtension` raised for an invalid
selection (with its user-facing message), or the uncaught
`ZeroDivisionError` of the perpendicular tangent normalisation. -/
inductive RunErr where
  | abort (msg : String)
  | zeroDiv
deriving DecidableEq

/-- What a run appended and mutated: the groups appended to the current
layer, in append order, each tagged with the id of its source shape; and
the ids of the shapes whose style got `display: none`, in mutation order. -/
structure RunResult (K : Type) where
  groups : List (String × List (GElem K))
  hidden : List String

/-- The loop `for node in nodesPath: self._annotatePath(node, layer)`. -/
def runPathsGrid (o : Options K) : List (PathNode K) → List (String × List (GElem K)) × List String
  | [] => ([], [])
  | n :: ns =>
    let r := annotatePath o n
    let rest := runPathsGrid o ns
    ((n.eid, r.elems) :: rest.1, (if r.hidden then [n.eid] else []) ++ rest.2)

/-- The loop `for node in nodesPath: self._annotatePathPerpendicularly(node, layer)`:
an uncaught `ZeroDivisionError` stops the loop, keeping the groups already
appended (the third component is the abnormal exit, if any). -/
noncomputable def runPathsPerp (o : Options ℝ) (lengthOf : PathNode ℝ → ℝ) :
    List (PathNode ℝ) → List (String × List (GElem ℝ)) × List String × Option RunErr
  | [] => ([], [], none)
  | n :: ns =>
    match annotatePathPerp o n (lengthOf n) with
    | none => ([], [], some .zeroDiv)
    | some r =>
      let rest := runPathsPerp o lengthOf ns
      ((n.eid, r.elems) :: rest.1, (if r.hidden then [n.eid] else []) ++ rest.2.1, rest.2.2)

/-- The loop `for node in nodesRect: self._annotateRect(node, layer)`. -/
def runRects (o : Options K) : List (RectNode K) → List (String × List (GElem K)) × List String
  | [] => ([], [])
  | n :: ns =>
    let r := annotateRect o n
    let rest := runRects o ns
    ((n.eid, r.elems) :: rest.1, (if r.hidden then [n.eid] else []) ++ rest.2)

/-- `effect()`: filter the selection into paths and rectangles, abort with a
user-facing message when both filters are empty, otherwise annotate all
paths (perpendicularly when the option is set) and then all rectangles.
`lengthOf` is the host's `csplength` total for a path.  The first component
is everything appended/mutated before the run ended; the second is the
abnormal exit, if any. -/
noncomputable def effect (o : Options ℝ) (lengthOf : PathNode ℝ → ℝ)
    (sel : List (Shape ℝ)) : RunResult ℝ × Option RunErr :=
  let nodesPath := sel.filterMap Shape.asPath
  let nodesRect := sel.filterMap Shape.asRect
  if nodesPath.isEmpty && nodesRect.isEmpty then
    (⟨[], []⟩, some (.abort "Please select at least one path or rectangle object."))
  else
    let pr : List (String × List (GElem ℝ)) × List String × Option RunErr :=
      if o.perp then runPathsPerp o lengthOf nodesPath
      else ((runPathsGrid o nodesPath).1, (runPathsGrid o nodesPath).2, none)
    match pr.2.2 with
    | some e => (⟨pr.1, pr.2.1⟩, some e)
    | none =>
      let rr := runRects o nodesRect
      (⟨pr.1 ++ rr.1, pr.2.1 ++ rr.2⟩, none)

/-! Concrete instances used by witnesses and counterexamples. -/

/-- Default run configuration over `ℚ` (offsets 50, font size 10,
precision 2, document unit = px). -/
def oQ : Options ℚ := ⟨true, false, 50, 50, 10, 2, 1⟩

/-- Like `oQ` but with different x/y offsets. -/
def oQ2 : Options ℚ := ⟨true, false, 7, -3, 10, 2, 1⟩

/-- Like `oQ` but with a non-trivial px-to-document-unit factor. -/
def oQu : Options ℚ := ⟨true, false, 50, 50, 10, 2, 96 / 25⟩

/-- A vertical-dominant path shape: bounding box 2 wide, 5 tall. -/
def nC1 : PathNode ℚ := ⟨"p1", ⟨0, 0, 2, 5⟩, []⟩

/-- A horizontal-dominant path shape: bounding box 4 wide, 2 tall. -/
def nC7 : PathNode ℚ := ⟨"p7", ⟨0, 0, 4, 2⟩, []⟩

/-- A 100×40 rectangle with a 2px stroke-width attribute. -/
def rQ : RectNode ℚ := ⟨"r1", ⟨0, 0, 100, 40⟩, some 2⟩

/-- A 10×5 rectangle with no stroke-width attribute. -/
def rQn : RectNode ℚ := ⟨"r2", ⟨0, 0, 10, 5⟩, none⟩

/-- A perpendicular-mode run configuration over `ℝ` with hide set. -/
def oPW : Options ℝ := ⟨true, true, 50, 50, 10, 2, 1⟩

/-- A one-segment superpath: a straight degenerate segment from `(0,0)` to
`(3,4)` (each anchor's control handle collapsed onto it). -/
def cspW : Csp ℝ := [[((0, 0), (0, 0), (0, 0)), ((3, 4), (3, 4), (3, 4))]]

/-- The path node carrying `cspW`. -/
def nPW : PathNode ℝ := ⟨"pw", ⟨0, 0, 3, 4⟩, cspW⟩

/-- A fully degenerate superpath: one straight segment whose two anchors
coincide (zero-length direction vector). -/
def cspZ : Csp ℝ := [[((0, 0), (0, 0), (0, 0)), ((0, 0), (0, 0), (0, 0))]]

/-- The path node carrying `cspZ`. -/
def nZ : PathNode ℝ := ⟨"pz", ⟨0, 0, 0, 0⟩, cspZ⟩

/-- A grid-mode run configuration over `ℝ` with hide unset. -/
def oR : Options ℝ := ⟨false, false, 50, 50, 10, 2, 1⟩

/-- A path shape for selection-order runs. -/
def pR : PathNode ℝ := ⟨"p0", ⟨0, 0, 4, 2⟩, []⟩

/-- A rectangle shape for selection-order runs. -/
def rR : RectNode ℝ := ⟨"r0", ⟨0, 0, 3, 3⟩, none⟩

/-! Claim C1 -/

/-- Claim C1 (amended): for every path annotated in grid-orthogonal mode,
the horizontally named label is emitted iff the bounding box's
width ≥ height (a tie resolves to horizontal-dominant), and the labelled
measured value equals `round(height, precision)` in BOTH branches — the
source passes `bbox.height` as `dimVal` unconditionally, so the value is
not the cross-axis extent when vertical-dominant. -/
theorem annotatePath_dominance_and_value (o : Options K) (n : PathNode K) :
    textLabels (annotatePath o n).elems
        = [n.eid ++ (if n.bbox.width ≥ n.bbox.height then "-xa-dimning-horz-dim"
            else "-xa-dimning-vert-dim")] ∧
    textValues (annotatePath o n).elems = [roundP n.bbox.height o.precision] := by
  by_cases h : n.bbox.width ≥ n.bbox.height <;>
    simp [annotatePath, textLabels, textValues, h]

/-- Claim C1, counterexample to the claim as stated: for the
vertical-dominant shape `nC1` (width 2 < height 5) the emitted value is NOT
`round(width, precision)` — the code labels it with `round(height,
precision) = 5`. -/
theorem annotatePath_crossaxis_value_cex :
    nC1.bbox.width < nC1.bbox.height ∧
    textValues (annotatePath oQ nC1).elems ≠ [roundP nC1.bbox.width oQ.precision] := by
  constructor
  · norm_num [nC1, BBox.width, BBox.height]
  · norm_num [annotatePath, textValues, oQ, nC1, BBox.width, BBox.height,
      roundP, round_eq, List.filterMap_cons]

/-! Claim C2 -/

/-- Claim C2: every annotated rectangle gets exactly two labels, the
horizontal one carrying `round(width + stroke, precision)` and the vertical
one `round(height + stroke, precision)` where `stroke` is the px-converted
stroke-width attribute times the px-to-document-unit factor; and the label
values do not depend on the configured x/y offsets (any two configurations
agreeing on precision and the unit factor give the same values). -/
theorem annotateRect_label_values (o o' : Options K) (n : RectNode K)
    (hp : o'.precision = o.precision) (hu : o'.uuperpx = o.uuperpx) :
    textValues (annotateRect o n).elems
        = [roundP (n.bbox.width + n.strokePx.getD 1 * o.uuperpx) o.precision,
           roundP (n.bbox.height + n.strokePx.getD 1 * o.uuperpx) o.precision] ∧
    textValues (annotateRect o' n).elems = textValues (annotateRect o n).elems := by
  constructor <;> simp [annotateRect, textValues, hp, hu]

/-- Claim C2, witness: the 100×40 rectangle with 2px stroke under the
default configuration, and under a configuration differing only in its
offsets. -/
theorem annotateRect_label_values_w :
    oQ2.precision = oQ.precision ∧ oQ2.uuperpx = oQ.uuperpx ∧
    (textValues (annotateRect oQ rQ).elems
        = [roundP (rQ.bbox.width + rQ.strokePx.getD 1 * oQ.uuperpx) oQ.precision,
           roundP (rQ.bbox.height + rQ.strokePx.getD 1 * oQ.uuperpx) oQ.precision] ∧
     textValues (annotateRect oQ2 rQ).elems = textValues (annotateRect oQ rQ).elems) :=
  ⟨rfl, rfl, annotateRect_label_values oQ oQ2 rQ rfl rfl⟩

/-! Claim C7 -/

/-- Claim C7 (amended): for every horizontal-dominant path in
grid-orthogonal mode the emitted geometry is: two vertical tick lines at
the bounding box's left and right edges, each extended `2·yOffset` (not
`yOffset`) beyond the top edge; and one horizontal guide line lying
`yOffset` above the top edge (not at the top edge) spanning exactly from
the left edge to the right edge (not extended past it), with the label
attached to that horizontal guide line. -/
theorem annotatePath_horizontal_geometry (o : Options K) (n : PathNode K)
    (h : n.bbox.width ≥ n.bbox.height) :
    (annotatePath o n).elems =
      [GElem.line ⟨n.bbox.left, n.bbox.top - 2 * o.yoffset, n.bbox.left, n.bbox.bottom⟩
          (1 / 2 * o.uuperpx) (some (n.eid ++ "-xa-dimning-horz-l")),
       GElem.line ⟨n.bbox.right, n.bbox.top - 2 * o.yoffset, n.bbox.right, n.bbox.bottom⟩
          (1 / 2 * o.uuperpx) (some (n.eid ++ "-xa-dimning-horz-r")),
       GElem.line ⟨n.bbox.left, n.bbox.top - o.yoffset, n.bbox.right, n.bbox.top - o.yoffset⟩
          o.uuperpx (some (n.eid ++ "-xa-dimning-horz")),
       GElem.text (roundP n.bbox.height o.precision) 0 2
          ⟨n.bbox.left, n.bbox.top - o.yoffset, n.bbox.right, n.bbox.top - o.yoffset⟩
          (n.eid ++ "-xa-dimning-horz-dim")] := by
  simp [annotatePath, h, horzLine, vertLine]

/-- Claim C7, witness: the amended geometry at the horizontal-dominant
shape `nC7` under the default configuration. -/
theorem annotatePath_horizontal_geometry_w :
    nC7.bbox.width ≥ nC7.bbox.height ∧
    (annotatePath oQ nC7).elems =
      [GElem.line ⟨nC7.bbox.left, nC7.bbox.top - 2 * oQ.yoffset, nC7.bbox.left, nC7.bbox.bottom⟩
          (1 / 2 * oQ.uuperpx) (some (nC7.eid ++ "-xa-dimning-horz-l")),
       GElem.line ⟨nC7.bbox.right, nC7.bbox.top - 2 * oQ.yoffset, nC7.bbox.right, nC7.bbox.bottom⟩
          (1 / 2 * oQ.uuperpx) (some (nC7.eid ++ "-xa-dimning-horz-r")),
       GElem.line ⟨nC7.bbox.left, nC7.bbox.top - oQ.yoffset, nC7.bbox.right, nC7.bbox.top - oQ.yoffset⟩
          oQ.uuperpx (some (nC7.eid ++ "-xa-dimning-horz")),
       GElem.text (roundP nC7.bbox.height oQ.precision) 0 2
          ⟨nC7.bbox.left, nC7.bbox.top - oQ.yoffset, nC7.bbox.right, nC7.bbox.top - oQ.yoffset⟩
          (nC7.eid ++ "-xa-dimning-horz-dim")] :=
  ⟨by norm_num [nC7, BBox.width, BBox.height],
   annotatePath_horizontal_geometry oQ nC7 (by norm_num [nC7, BBox.width, BBox.height])⟩

/-- Claim C7, counterexample to the claim as stated: for the
horizontal-dominant shape `nC7` with yOffset = 50 ≠ 0, NO emitted line lies
horizontally at the top edge — the claimed guide line "lying at the top
edge" does not exist (it lies `yOffset` above the top edge). -/
theorem annotatePath_guide_not_at_top_cex :
    nC7.bbox.width ≥ nC7.bbox.height ∧ oQ.yoffset ≠ 0 ∧
    ¬ HasHorzLineAtY (annotatePath oQ nC7).elems nC7.bbox.top := by
  refine ⟨by norm_num [nC7, BBox.width, BBox.height], by norm_num [oQ], ?_⟩
  rintro ⟨g, sw, lbl, hmem, hy1, hy2⟩
  norm_num [annotatePath, oQ, nC7, BBox.width, BBox.height, horzLine, vertLine] at hmem
  rcases hmem with ⟨hg, -, -⟩ | ⟨hg, -, -⟩ | ⟨hg, -, -⟩ | h4
  · subst hg; norm_num [nC7] at hy1
  · subst hg; norm_num [nC7] at hy1
  · subst hg; norm_num [nC7] at hy1
  · exact GElem.noConfusion h4

/-! Claim C10 -/

/-- Claim C10: a rectangle with no stroke-width attribute defaults to 1px
(converted to document units), so its labels carry
`round(width + uuperpx, precision)` and `round(height + uuperpx, precision)`
rather than the bare bounding-box extents. -/
theorem annotateRect_default_stroke (o : Options K) (n : RectNode K)
    (h : n.strokePx = none) :
    textValues (annotateRect o n).elems
        = [roundP (n.bbox.width + o.uuperpx) o.precision,
           roundP (n.bbox.height + o.uuperpx) o.precision] := by
  simp [annotateRect, textValues, h]

/-- Claim C10, witness: the strokeless 10×5 rectangle under a
configuration whose px-to-document-unit factor is 96/25. -/
theorem annotateRect_default_stroke_w :
    rQn.strokePx = none ∧
    textValues (annotateRect oQu rQn).elems
        = [roundP (rQn.bbox.width + oQu.uuperpx) oQu.precision,
           roundP (rQn.bbox.height + oQu.uuperpx) oQu.precision] :=
  ⟨rfl, annotateRect_default_stroke oQu rQn rfl⟩

/-! Perpendicular mode -/

/-- Helper: concrete evaluation of the endpoint tangents of `nPW` (a
straight degenerate segment of direction `(3, 4)` with offsets 50/50):
both tangents are `(3/5·50, 4/5·50) = (30, 40)`. -/
theorem endTangents_nPW : endTangents oPW nPW.csp = some ((30, 40), (30, 40)) := by
  have h5 : Real.sqrt ((3 : ℝ) ^ 2 + 4 ^ 2) = 5 := by
    rw [show (3 : ℝ) ^ 2 + 4 ^ 2 = 5 ^ 2 by norm_num]
    exact Real.sqrt_sq (by norm_num)
  have h5' : Real.sqrt (25 : ℝ) = 5 := by
    rw [show (25 : ℝ) = 5 ^ 2 by norm_num]
    exact Real.sqrt_sq (by norm_num)
  norm_num [endTangents, cspReduce, segReduce, straightTangent, nPW, cspW,
    tripleDflt, oPW, h5, h5']

/-! Claim C5 -/

/-- Claim C5: in perpendicular mode, for the path `nZ` — whose first (and
last) reduced segment is a straight degeneracy (outgoing control equal to
its anchor) with coinciding anchor points (zero-length direction vector) —
the unguarded `scale = 1 / sqrt(0)` raises `ZeroDivisionError`, so the
annotation returns no normal result (modelled by `none`). -/
theorem perp_divzero_on_degenerate :
    (cspReduce cspZ).1.1 = (cspReduce cspZ).1.2.1 ∧
    cspStart cspZ = cspEnd cspZ ∧
    annotatePathPerp oPW nZ 0 = none := by
  refine ⟨rfl, rfl, ?_⟩
  norm_num [annotatePathPerp, endTangents, cspReduce, segReduce, straightTangent,
    cspZ, nZ, tripleDflt, oPW]

/-! Claim C6 -/

/-- Claim C6: in perpendicular mode, whenever the endpoint tangents
`(ax, ay)` (start) and `(bx, by)` (end) are computed, the tick line at each
endpoint runs from that endpoint along `(ay, -ax)` (resp. `(by, -bx)`), and
the main dimension line connects `p0 + (ay/2, -ax/2)` to
`p1 + (by/2, -bx/2)` where `p0`, `p1` are the path's start and end
anchors. -/
theorem perp_tick_and_mainline (o : Options ℝ) (n : PathNode ℝ)
    (stotal ax ay bx b_y : ℝ)
    (h : endTangents o n.csp = some ((ax, ay), (bx, b_y))) :
    annotatePathPerp o n stotal = some
      ⟨[GElem.line ⟨(cspStart n.csp).1, (cspStart n.csp).2,
          (cspStart n.csp).1 + ay, (cspStart n.csp).2 - ax⟩ (1 / 2 * o.uuperpx) none,
        GElem.line ⟨(cspEnd n.csp).1, (cspEnd n.csp).2,
          (cspEnd n.csp).1 + b_y, (cspEnd n.csp).2 - bx⟩ (1 / 2 * o.uuperpx) none,
        GElem.line ⟨(cspStart n.csp).1 + ay * (1 / 2), (cspStart n.csp).2 - ax * (1 / 2),
          (cspEnd n.csp).1 + b_y * (1 / 2), (cspEnd n.csp).2 - bx * (1 / 2)⟩
          o.uuperpx none,
        GElem.text (roundP stotal o.precision) (ax * 1.2) (ay * 1.2)
          ⟨(cspStart n.csp).1 + ay * (1 / 2), (cspStart n.csp).2 - ax * (1 / 2),
           (cspEnd n.csp).1 + b_y * (1 / 2), (cspEnd n.csp).2 - bx * (1 / 2)⟩
          (n.eid ++ "-xa-dimning-vert-dim")],
       false⟩ := by
  simp [annotatePathPerp, h]

/-- Claim C6, witness: the perpendicular annotation of `nPW` with computed
tangents `(30, 40)` at both endpoints. -/
theorem perp_tick_and_mainline_w :
    endTangents oPW nPW.csp = some ((30, 40), (30, 40)) ∧
    annotatePathPerp oPW nPW 5 = some
      ⟨[GElem.line ⟨(cspStart nPW.csp).1, (cspStart nPW.csp).2,
          (cspStart nPW.csp).1 + 40, (cspStart nPW.csp).2 - 30⟩ (1 / 2 * oPW.uuperpx) none,
        GElem.line ⟨(cspEnd nPW.csp).1, (cspEnd nPW.csp).2,
          (cspEnd nPW.csp).1 + 40, (cspEnd nPW.csp).2 - 30⟩ (1 / 2 * oPW.uuperpx) none,
        GElem.line ⟨(cspStart nPW.csp).1 + 40 * (1 / 2), (cspStart nPW.csp).2 - 30 * (1 / 2),
          (cspEnd nPW.csp).1 + 40 * (1 / 2), (cspEnd nPW.csp).2 - 30 * (1 / 2)⟩
          oPW.uuperpx none,
        GElem.text (roundP 5 oPW.precision) (30 * 1.2) (40 * 1.2)
          ⟨(cspStart nPW.csp).1 + 40 * (1 / 2), (cspStart nPW.csp).2 - 30 * (1 / 2),
           (cspEnd nPW.csp).1 + 40 * (1 / 2), (cspEnd nPW.csp).2 - 30 * (1 / 2)⟩
          (nPW.eid ++ "-xa-dimning-vert-dim")],
       false⟩ :=
  ⟨endTangents_nPW, perp_tick_and_mainline oPW nPW 5 30 40 30 40 endTangents_nPW⟩

/-! Claim C4 -/

/-- Claim C4 is contradicted by the code in perpendicular mode: with the
hide option set, `_annotatePathPerpendicularly` never touches the source
shape's display style (the function has no hide step), so the shape stays
visible although the `--hide` help text promises "Hide dimensioned object
after having been annotated". -/
theorem perp_mode_never_hides :
    oPW.hide = true ∧
    (annotatePathPerp oPW nPW 5).map AnnotResult.hidden = some false := by
  refine ⟨rfl, ?_⟩
  simp [annotatePathPerp, endTangents_nPW]

/-! Claim C8 -/

/-- Claim C8: the straight-degenerate tangent with nonzero direction
`(dx, dy)` equals `(dx/‖(dx,dy)‖ · xOffset, dy/‖(dx,dy)‖ · yOffset)`, and
is invariant under scaling the direction vector by any positive factor
(the normalisation removes all dependence on the segment's absolute
length). -/
theorem straightTangent_scale_invariant (o : Options ℝ) (px py dx dy t : ℝ)
    (hd : ¬(dx = 0 ∧ dy = 0)) (ht : 0 < t) :
    straightTangent o (px, py) (px + dx, py + dy)
        = some (dx / Real.sqrt (dx ^ 2 + dy ^ 2) * o.xoffset,
                dy / Real.sqrt (dx ^ 2 + dy ^ 2) * o.yoffset) ∧
    straightTangent o (px, py) (px + t * dx, py + t * dy)
        = straightTangent o (px, py) (px + dx, py + dy) := by
  have hs : 0 < dx ^ 2 + dy ^ 2 := by
    rcases not_and_or.mp hd with h | h
    · exact add_pos_of_pos_of_nonneg
        (lt_of_le_of_ne (sq_nonneg dx) (Ne.symm (pow_ne_zero 2 h))) (sq_nonneg dy)
    · exact add_pos_of_nonneg_of_pos (sq_nonneg dx)
        (lt_of_le_of_ne (sq_nonneg dy) (Ne.symm (pow_ne_zero 2 h)))
  have hs0 : dx ^ 2 + dy ^ 2 ≠ 0 := ne_of_gt hs
  have e1 : px + dx - px = dx := by ring
  have e2 : py + dy - py = dy := by ring
  have e1t : px + t * dx - px = t * dx := by ring
  have e2t : py + t * dy - py = t * dy := by ring
  have et : (t * dx) ^ 2 + (t * dy) ^ 2 = t ^ 2 * (dx ^ 2 + dy ^ 2) := by ring
  have hts : Real.sqrt (t ^ 2 * (dx ^ 2 + dy ^ 2))
      = t * Real.sqrt (dx ^ 2 + dy ^ 2) := by
    rw [Real.sqrt_mul (sq_nonneg t), Real.sqrt_sq ht.le]
  have hrs : Real.sqrt (dx ^ 2 + dy ^ 2) ≠ 0 := Real.sqrt_ne_zero'.mpr hs
  have hts0 : t ^ 2 * (dx ^ 2 + dy ^ 2) ≠ 0 :=
    mul_ne_zero (pow_ne_zero 2 (ne_of_gt ht)) hs0
  constructor
  · simp only [straightTangent, e1, e2, if_neg hs0]
    rw [Option.some.injEq, Prod.mk.injEq]
    constructor <;> field_simp
  · simp only [straightTangent, e1, e2, e1t, e2t, et, if_neg hs0, if_neg hts0, hts]
    rw [Option.some.injEq, Prod.mk.injEq]
    constructor <;> · field_simp; ring

/-- Claim C8, witness: direction `(3, 4)` scaled by `2` under the default
perpendicular configuration. -/
theorem straightTangent_scale_invariant_w :
    ¬((3 : ℝ) = 0 ∧ (4 : ℝ) = 0) ∧ (0 : ℝ) < 2 ∧
    (straightTangent oPW ((0 : ℝ), (0 : ℝ)) (0 + 3, 0 + 4)
        = some ((3 : ℝ) / Real.sqrt (3 ^ 2 + 4 ^ 2) * oPW.xoffset,
                (4 : ℝ) / Real.sqrt (3 ^ 2 + 4 ^ 2) * oPW.yoffset) ∧
     straightTangent oPW ((0 : ℝ), (0 : ℝ)) (0 + 2 * 3, 0 + 2 * 4)
        = straightTangent oPW ((0 : ℝ), (0 : ℝ)) (0 + 3, 0 + 4)) :=
  ⟨by norm_num, by norm_num,
   straightTangent_scale_invariant oPW 0 0 3 4 2 (by norm_num) (by norm_num)⟩

/-! Run-level processing order -/

/-- Helper: the grid path loop appends one group per path, tagged with the
source ids in list order. -/
theorem runPathsGrid_map_fst (o : Options K) (l : List (PathNode K)) :
    (runPathsGrid o l).1.map Prod.fst = l.map PathNode.eid := by
  induction l with
  | nil => rfl
  | cons n ns ih => simp [runPathsGrid, ih]

/-- Helper: the rectangle loop appends one group per rectangle, tagged with
the source ids in list order. -/
theorem runRects_map_fst (o : Options K) (l : List (RectNode K)) :
    (runRects o l).1.map Prod.fst = l.map RectNode.eid := by
  induction l with
  | nil => rfl
  | cons n ns ih => simp [runRects, ih]

/-- Helper: when the perpendicular path loop ends without error it appends
one group per path, tagged with the source ids in list order. -/
theorem runPathsPerp_map_fst (o : Options ℝ) (f : PathNode ℝ → ℝ)
    (l : List (PathNode ℝ)) (h : (runPathsPerp o f l).2.2 = none) :
    (runPathsPerp o f l).1.map Prod.fst = l.map PathNode.eid := by
  induction l with
  | nil => rfl
  | cons n ns ih =>
    cases hA : annotatePathPerp o n (f n) with
    | none => rw [runPathsPerp, hA] at h; simp at h
    | some r =>
      rw [runPathsPerp, hA] at h ⊢
      simpa using ih h

/-! Claim C3 -/

/-- Claim C3: a selection containing neither a path nor a rectangle makes
the run abort with the user-facing message before any mutation — no group
is appended to the layer and no shape's style is modified. -/
theorem effect_aborts_on_ineligible (o : Options ℝ) (lengthOf : PathNode ℝ → ℝ)
    (sel : List (Shape ℝ)) (h : ∀ s ∈ sel, Shape.isEligible s = false) :
    effect o lengthOf sel =
      (⟨[], []⟩, some (RunErr.abort "Please select at least one path or rectangle object.")) := by
  have hp : sel.filterMap Shape.asPath = [] := by
    rw [List.filterMap_eq_nil_iff]
    intro s hs
    cases s with
    | path n => simpa [Shape.isEligible] using h _ hs
    | rect n => rfl
    | other e => rfl
  have hr : sel.filterMap Shape.asRect = [] := by
    rw [List.filterMap_eq_nil_iff]
    intro s hs
    cases s with
    | path n => rfl
    | rect n => simpa [Shape.isEligible] using h _ hs
    | other e => rfl
  simp [effect, hp, hr]

/-- Claim C3, witness: a selection holding only an ellipse-like shape. -/
theorem effect_aborts_on_ineligible_w :
    (∀ s ∈ [Shape.other (K := ℝ) "ellipse1"], Shape.isEligible s = false) ∧
    effect oR (fun _ => 0) [Shape.other "ellipse1"] =
      (⟨[], []⟩, some (RunErr.abort "Please select at least one path or rectangle object.")) :=
  ⟨by intro s hs; simp at hs; subst hs; rfl,
   effect_aborts_on_ineligible oR (fun _ => 0) _
     (by intro s hs; simp at hs; subst hs; rfl)⟩

/-! Claim C9 -/

/-- Claim C9 (amended): shapes are processed one at a time, each group
fully assembled and appended before the next shape begins, but NOT in
overall selection order: all paths are processed first (in selection
order), then all rectangles (in selection order).  In an error-free run
the appended groups are tagged with the path ids in selection order
followed by the rectangle ids in selection order. -/
theorem effect_paths_then_rects (o : Options ℝ) (lengthOf : PathNode ℝ → ℝ)
    (sel : List (Shape ℝ)) (h : (effect o lengthOf sel).2 = none) :
    (effect o lengthOf sel).1.groups.map Prod.fst =
      (sel.filterMap Shape.asPath).map PathNode.eid
        ++ (sel.filterMap Shape.asRect).map RectNode.eid := by
  by_cases hab : ((sel.filterMap Shape.asPath).isEmpty
      && (sel.filterMap Shape.asRect).isEmpty) = true
  · simp [effect, hab] at h
  · by_cases hperp : o.perp
    · cases herr : (runPathsPerp o lengthOf (sel.filterMap Shape.asPath)).2.2 with
      | some e => simp [effect, hab, hperp, herr] at h
      | none =>
        simp [effect, hab, hperp, herr, runPathsPerp_map_fst o lengthOf _ herr,
          runRects_map_fst]
    · simp [effect, hab, hperp, runPathsGrid_map_fst, runRects_map_fst]

/-- Claim C9, witness: an error-free run on the selection
`[rectangle r0, path p0]` appends the path group first, then the rectangle
group. -/
theorem effect_paths_then_rects_w :
    (effect oR (fun _ => 0) [Shape.rect rR, Shape.path pR]).2 = none ∧
    (effect oR (fun _ => 0) [Shape.rect rR, Shape.path pR]).1.groups.map Prod.fst =
      (([Shape.rect rR, Shape.path pR] : List (Shape ℝ)).filterMap Shape.asPath).map
          PathNode.eid
        ++ (([Shape.rect rR, Shape.path pR] : List (Shape ℝ)).filterMap Shape.asRect).map
          RectNode.eid := by
  have h : (effect oR (fun _ => 0) [Shape.rect rR, Shape.path pR]).2 = none := by
    simp [effect, oR, Shape.asPath, Shape.asRect, runPathsGrid, runRects]
  exact ⟨h, effect_paths_then_rects oR (fun _ => 0) _ h⟩

/-- Claim C9, counterexample to the claim as stated: for the selection
`[rectangle r0, path p0]` the groups are appended in the order
`[p0, r0]`, not in the selection order `[r0, p0]` — paths are always
processed before rectangles. -/
theorem effect_selection_order_cex :
    (effect oR (fun _ => 0) [Shape.rect rR, Shape.path pR]).1.groups.map Prod.fst
        = ["p0", "r0"] ∧
    (effect oR (fun _ => 0) [Shape.rect rR, Shape.path pR]).1.groups.map Prod.fst
        ≠ ["r0", "p0"] := by
  have h : (effect oR (fun _ => 0) [Shape.rect rR, Shape.path pR]).1.groups.map Prod.fst
      = ["p0", "r0"] := by
    simp [effect, oR, Shape.asPath, Shape.asRect, runPathsGrid, runRects, pR, rR]
  exact ⟨h, by rw [h]; decide⟩
